import Mathlib

/-!
Verification development for the proteinfold workflow adapter.

The development shallowly embeds the two source files of the repository:
the parameter registry (latch_metadata/parameters.py) and the runtime
entrypoint (wf/entrypoint.py).  Pure command construction is embedded as
Lean functions; the side-effecting phases (workspace staging, subprocess
launch, post-run reporting, storage provisioning) are embedded as explicit
functions from environment descriptions to traces of observable events.
-/

set_option autoImplicit false

namespace Proteinfold

/-! ## Typed parameter values

A `PValue` is the runtime value bound to one workflow parameter, as the
entrypoint receives it: booleans, strings, integers, enum members, and
file/directory references carrying their remote path, or an absent
(Python `None`) value. -/

inductive PValue where
  | absent
  | vBool (b : Bool)
  | vStr (s : String)
  | vInt (n : Int)
  | vEnum (name : String)
  | vFile (remotePath : String)
  | vDir (remotePath : String)
deriving DecidableEq

/-! ## Integer stringification and parsing

Models Python `str` on `int` (as used when a flag value is stringified)
and Python `int` on a decimal string (the re-parsing direction of the
round-trip law).  Digits are produced by a fuel-based base-10 expansion
so that everything evaluates inside the kernel. -/

def digitsFuel : Nat → Nat → List Nat
  | 0, _ => []
  | fuel + 1, n => if n = 0 then [] else n % 10 :: digitsFuel fuel (n / 10)

/-- Little-endian base-10 digits of a natural number. -/
def natDigits (n : Nat) : List Nat :=
  digitsFuel n n

/-- Recombine little-endian base-10 digits. -/
def fromDigits : List Nat → Nat
  | [] => 0
  | d :: ds => d + 10 * fromDigits ds

def digitChar (d : Nat) : Char :=
  Char.ofNat (48 + d)

def charDigit (c : Char) : Nat :=
  c.toNat - 48

/-- Decimal rendering of a natural number, most significant digit first. -/
def natStr (n : Nat) : List Char :=
  if n = 0 then ['0'] else ((natDigits n).map digitChar).reverse

/-- Python str applied to an arbitrary-precision integer. -/
def intStr : Int → String
  | Int.ofNat n => String.mk (natStr n)
  | Int.negSucc m => String.mk ('-' :: natStr (m + 1))

/-- Parse a non-empty all-digit character list as a natural number. -/
def natParseL (cs : List Char) : Option Nat :=
  if cs ≠ [] ∧ cs.all Char.isDigit then
    some (fromDigits ((cs.map charDigit).reverse))
  else none

def intParseL : List Char → Option Int
  | [] => none
  | c :: cs =>
      if c = '-' then (natParseL cs).map (fun n => -(n : Int))
      else (natParseL (c :: cs)).map Int.ofNat

/-- Python int applied to a decimal string (sign-aware). -/
def intParse (s : String) : Option Int :=
  intParseL s.data

/-! ## The pipeline mode enum (entrypoint.py lines 31-35) -/

inductive Mode where
  | alphafold2
  | colabfold
  | esmfold
deriving DecidableEq

/-- Symbolic name of an enum member, used for stringification. -/
def modeName : Mode → String
  | Mode.alphafold2 => "alphafold2"
  | Mode.colabfold => "colabfold"
  | Mode.esmfold => "esmfold"

/-- Recover an enum member from its symbolic name. -/
def modeOfName (s : String) : Option Mode :=
  if s = "alphafold2" then some Mode.alphafold2
  else if s = "colabfold" then some Mode.colabfold
  else if s = "esmfold" then some Mode.esmfold
  else none

/-! ## The Flag Translator -/

/-- Modelled from the spec: the Flag Translator (the get_flag function
imported from the external SDK module latch_cli.nextflow.workflow) is not
part of src/.  Its translation rules follow section 4.1 of the spec: an
absent value produces no tokens; boolean true produces the presence-only
flag and boolean false produces no tokens; string, integer and enum
values produce the flag followed by the stringified value (enums via the
symbolic name); file and directory references produce the flag followed
by their canonical remote path. -/
def get_flag (name : String) (v : PValue) : List String :=
  match v with
  | PValue.absent => []
  | PValue.vBool true => ["--" ++ name]
  | PValue.vBool false => []
  | PValue.vStr s => ["--" ++ name, s]
  | PValue.vInt n => ["--" ++ name, intStr n]
  | PValue.vEnum nm => ["--" ++ name, nm]
  | PValue.vFile p => ["--" ++ name, p]
  | PValue.vDir p => ["--" ++ name, p]

def pvOptStr : Option String → PValue
  | none => PValue.absent
  | some s => PValue.vStr s

def pvOptInt : Option Int → PValue
  | none => PValue.absent
  | some n => PValue.vInt n

def pvOptFile : Option String → PValue
  | none => PValue.absent
  | some p => PValue.vFile p

def pvOptDir : Option String → PValue
  | none => PValue.absent
  | some p => PValue.vDir p

/-! ## Parameter bindings of the runtime task

One field per parameter of the nextflow_runtime task (entrypoint.py lines
61-122), in signature order.  LatchFile / LatchDir / LatchOutputDir values
are carried as their canonical remote path string. -/

structure NfParams where
  pvc_name : String
  run_name : String
  input : String
  outdir : String
  use_gpu : Bool
  email : Option String
  multiqc_title : Option String
  alphafold2_db : Option String
  colabfold_db : Option String
  host_url : Option String
  create_colabfold_index : Bool
  esmfold_db : Option String
  esmfold_model_preset : Option String
  skip_multiqc : Bool
  bfd_path : Option String
  small_bfd_path : Option String
  alphafold2_params_path : Option String
  mgnify_path : Option String
  pdb70_path : Option String
  pdb_mmcif_path : Option String
  uniref30_alphafold2_path : Option String
  uniref90_path : Option String
  pdb_seqres_path : Option String
  uniprot_path : Option String
  colabfold_alphafold2_params_link : Option String
  colabfold_db_path : Option String
  uniref30_colabfold_path : Option String
  colabfold_alphafold2_params_path : Option String
  colabfold_alphafold2_params_tags : Option String
  esmfold_params_path : Option String
  multiqc_methods_description : Option String
  mode : Mode
  max_template_date : Option String
  full_dbs : Bool
  alphafold2_mode : Option String
  alphafold2_model_preset : Option String
  colabfold_server : Option String
  colabfold_model_preset : Option String
  num_recycles_colabfold : Option Int
  use_amber : Bool
  db_load_mode : Option Int
  use_templates : Bool
  num_recycles_esmfold : Option Int
  bfd_link : Option String
  small_bfd_link : Option String
  alphafold2_params_link : Option String
  mgnify_link : Option String
  pdb70_link : Option String
  pdb_mmcif_link : Option String
  pdb_obsolete_link : Option String
  uniref30_alphafold2_link : Option String
  uniref90_link : Option String
  pdb_seqres_link : Option String
  uniprot_sprot_link : Option String
  uniprot_trembl_link : Option String
  colabfold_db_link : Option String
  uniref30_colabfold_link : Option String
  esmfold_3B_v1 : Option String
  esm2_t36_3B_UR50D : Option String
  esm2_t36_3B_UR50D_contact_regression : Option String
deriving DecidableEq

/-! ## Fixed leading tokens (entrypoint.py lines 123, 147-164) -/

def shared_dir : String := "/nf-workdir"

def profile_list : List String := ["docker", "test"]

/-- Mirrors the append of a standard profile when the list is empty. -/
def profile_list_final : List String :=
  if profile_list.length = 0 then profile_list ++ ["standard"] else profile_list

def profiles : String := String.intercalate "," profile_list_final

def fixedTokens : List String :=
  ["/root/nextflow", "run", shared_dir ++ "/main.nf", "-work-dir", shared_dir,
   "-profile", profiles, "-c", "latch.config", "-resume"]

/-! ## The constructed command line (entrypoint.py lines 154-225)

The literal transcription of the cmd list: the fixed leading tokens
followed by the spliced get_flag results, one per parameter, in the order
they appear in the source. -/

def cmd (b : NfParams) : List String :=
  fixedTokens
  ++ get_flag "input" (PValue.vFile b.input)
  ++ get_flag "outdir" (PValue.vDir (b.outdir ++ "/" ++ b.run_name))
  ++ get_flag "mode" (PValue.vEnum (modeName b.mode))
  ++ get_flag "use_gpu" (PValue.vBool b.use_gpu)
  ++ get_flag "email" (pvOptStr b.email)
  ++ get_flag "multiqc_title" (pvOptStr b.multiqc_title)
  ++ get_flag "max_template_date" (pvOptStr b.max_template_date)
  ++ get_flag "alphafold2_db" (pvOptStr b.alphafold2_db)
  ++ get_flag "full_dbs" (PValue.vBool b.full_dbs)
  ++ get_flag "alphafold2_mode" (pvOptStr b.alphafold2_mode)
  ++ get_flag "alphafold2_model_preset" (pvOptStr b.alphafold2_model_preset)
  ++ get_flag "colabfold_db" (pvOptStr b.colabfold_db)
  ++ get_flag "colabfold_server" (pvOptStr b.colabfold_server)
  ++ get_flag "colabfold_model_preset" (pvOptStr b.colabfold_model_preset)
  ++ get_flag "num_recycles_colabfold" (pvOptInt b.num_recycles_colabfold)
  ++ get_flag "use_amber" (PValue.vBool b.use_amber)
  ++ get_flag "db_load_mode" (pvOptInt b.db_load_mode)
  ++ get_flag "host_url" (pvOptStr b.host_url)
  ++ get_flag "use_templates" (PValue.vBool b.use_templates)
  ++ get_flag "create_colabfold_index" (PValue.vBool b.create_colabfold_index)
  ++ get_flag "esmfold_db" (pvOptDir b.esmfold_db)
  ++ get_flag "num_recycles_esmfold" (pvOptInt b.num_recycles_esmfold)
  ++ get_flag "esmfold_model_preset" (pvOptStr b.esmfold_model_preset)
  ++ get_flag "skip_multiqc" (PValue.vBool b.skip_multiqc)
  ++ get_flag "bfd_link" (pvOptStr b.bfd_link)
  ++ get_flag "small_bfd_link" (pvOptStr b.small_bfd_link)
  ++ get_flag "alphafold2_params_link" (pvOptStr b.alphafold2_params_link)
  ++ get_flag "mgnify_link" (pvOptStr b.mgnify_link)
  ++ get_flag "pdb70_link" (pvOptStr b.pdb70_link)
  ++ get_flag "pdb_mmcif_link" (pvOptStr b.pdb_mmcif_link)
  ++ get_flag "pdb_obsolete_link" (pvOptStr b.pdb_obsolete_link)
  ++ get_flag "uniref30_alphafold2_link" (pvOptStr b.uniref30_alphafold2_link)
  ++ get_flag "uniref90_link" (pvOptStr b.uniref90_link)
  ++ get_flag "pdb_seqres_link" (pvOptStr b.pdb_seqres_link)
  ++ get_flag "uniprot_sprot_link" (pvOptStr b.uniprot_sprot_link)
  ++ get_flag "uniprot_trembl_link" (pvOptStr b.uniprot_trembl_link)
  ++ get_flag "bfd_path" (pvOptDir b.bfd_path)
  ++ get_flag "small_bfd_path" (pvOptDir b.small_bfd_path)
  ++ get_flag "alphafold2_params_path" (pvOptDir b.alphafold2_params_path)
  ++ get_flag "mgnify_path" (pvOptDir b.mgnify_path)
  ++ get_flag "pdb70_path" (pvOptDir b.pdb70_path)
  ++ get_flag "pdb_mmcif_path" (pvOptDir b.pdb_mmcif_path)
  ++ get_flag "uniref30_alphafold2_path" (pvOptDir b.uniref30_alphafold2_path)
  ++ get_flag "uniref90_path" (pvOptDir b.uniref90_path)
  ++ get_flag "pdb_seqres_path" (pvOptDir b.pdb_seqres_path)
  ++ get_flag "uniprot_path" (pvOptDir b.uniprot_path)
  ++ get_flag "colabfold_db_link" (pvOptStr b.colabfold_db_link)
  ++ get_flag "uniref30_colabfold_link" (pvOptStr b.uniref30_colabfold_link)
  ++ get_flag "colabfold_alphafold2_params_link" (pvOptStr b.colabfold_alphafold2_params_link)
  ++ get_flag "colabfold_db_path" (pvOptDir b.colabfold_db_path)
  ++ get_flag "uniref30_colabfold_path" (pvOptStr b.uniref30_colabfold_path)
  ++ get_flag "colabfold_alphafold2_params_path" (pvOptDir b.colabfold_alphafold2_params_path)
  ++ get_flag "colabfold_alphafold2_params_tags" (pvOptStr b.colabfold_alphafold2_params_tags)
  ++ get_flag "esmfold_3B_v1" (pvOptStr b.esmfold_3B_v1)
  ++ get_flag "esm2_t36_3B_UR50D" (pvOptStr b.esm2_t36_3B_UR50D)
  ++ get_flag "esm2_t36_3B_UR50D_contact_regression" (pvOptStr b.esm2_t36_3B_UR50D_contact_regression)
  ++ get_flag "esmfold_params_path" (pvOptDir b.esmfold_params_path)
  ++ get_flag "multiqc_methods_description" (pvOptFile b.multiqc_methods_description)

/-! ## Command structure as a list of named translations

The same 58 name/value pairs of cmd, in source order, as one list, so that
properties of the token sequence can be proved by structural recursion. -/

def flagChain : List (String × PValue) → List String
  | [] => []
  | p :: ps => get_flag p.1 p.2 ++ flagChain ps

def cmdPairs (b : NfParams) : List (String × PValue) :=
  [("input", PValue.vFile b.input),
   ("outdir", PValue.vDir (b.outdir ++ "/" ++ b.run_name)),
   ("mode", PValue.vEnum (modeName b.mode)),
   ("use_gpu", PValue.vBool b.use_gpu),
   ("email", pvOptStr b.email),
   ("multiqc_title", pvOptStr b.multiqc_title),
   ("max_template_date", pvOptStr b.max_template_date),
   ("alphafold2_db", pvOptStr b.alphafold2_db),
   ("full_dbs", PValue.vBool b.full_dbs),
   ("alphafold2_mode", pvOptStr b.alphafold2_mode),
   ("alphafold2_model_preset", pvOptStr b.alphafold2_model_preset),
   ("colabfold_db", pvOptStr b.colabfold_db),
   ("colabfold_server", pvOptStr b.colabfold_server),
   ("colabfold_model_preset", pvOptStr b.colabfold_model_preset),
   ("num_recycles_colabfold", pvOptInt b.num_recycles_colabfold),
   ("use_amber", PValue.vBool b.use_amber),
   ("db_load_mode", pvOptInt b.db_load_mode),
   ("host_url", pvOptStr b.host_url),
   ("use_templates", PValue.vBool b.use_templates),
   ("create_colabfold_index", PValue.vBool b.create_colabfold_index),
   ("esmfold_db", pvOptDir b.esmfold_db),
   ("num_recycles_esmfold", pvOptInt b.num_recycles_esmfold),
   ("esmfold_model_preset", pvOptStr b.esmfold_model_preset),
   ("skip_multiqc", PValue.vBool b.skip_multiqc),
   ("bfd_link", pvOptStr b.bfd_link),
   ("small_bfd_link", pvOptStr b.small_bfd_link),
   ("alphafold2_params_link", pvOptStr b.alphafold2_params_link),
   ("mgnify_link", pvOptStr b.mgnify_link),
   ("pdb70_link", pvOptStr b.pdb70_link),
   ("pdb_mmcif_link", pvOptStr b.pdb_mmcif_link),
   ("pdb_obsolete_link", pvOptStr b.pdb_obsolete_link),
   ("uniref30_alphafold2_link", pvOptStr b.uniref30_alphafold2_link),
   ("uniref90_link", pvOptStr b.uniref90_link),
   ("pdb_seqres_link", pvOptStr b.pdb_seqres_link),
   ("uniprot_sprot_link", pvOptStr b.uniprot_sprot_link),
   ("uniprot_trembl_link", pvOptStr b.uniprot_trembl_link),
   ("bfd_path", pvOptDir b.bfd_path),
   ("small_bfd_path", pvOptDir b.small_bfd_path),
   ("alphafold2_params_path", pvOptDir b.alphafold2_params_path),
   ("mgnify_path", pvOptDir b.mgnify_path),
   ("pdb70_path", pvOptDir b.pdb70_path),
   ("pdb_mmcif_path", pvOptDir b.pdb_mmcif_path),
   ("uniref30_alphafold2_path", pvOptDir b.uniref30_alphafold2_path),
   ("uniref90_path", pvOptDir b.uniref90_path),
   ("pdb_seqres_path", pvOptDir b.pdb_seqres_path),
   ("uniprot_path", pvOptDir b.uniprot_path),
   ("colabfold_db_link", pvOptStr b.colabfold_db_link),
   ("uniref30_colabfold_link", pvOptStr b.uniref30_colabfold_link),
   ("colabfold_alphafold2_params_link", pvOptStr b.colabfold_alphafold2_params_link),
   ("colabfold_db_path", pvOptDir b.colabfold_db_path),
   ("uniref30_colabfold_path", pvOptStr b.uniref30_colabfold_path),
   ("colabfold_alphafold2_params_path", pvOptDir b.colabfold_alphafold2_params_path),
   ("colabfold_alphafold2_params_tags", pvOptStr b.colabfold_alphafold2_params_tags),
   ("esmfold_3B_v1", pvOptStr b.esmfold_3B_v1),
   ("esm2_t36_3B_UR50D", pvOptStr b.esm2_t36_3B_UR50D),
   ("esm2_t36_3B_UR50D_contact_regression", pvOptStr b.esm2_t36_3B_UR50D_contact_regression),
   ("esmfold_params_path", pvOptDir b.esmfold_params_path),
   ("multiqc_methods_description", pvOptFile b.multiqc_methods_description)]

/-! ## The Parameter Registry (latch_metadata/parameters.py lines 158-513)

The registry enumeration order is the insertion order of the
generated_parameters dictionary. -/

def registryNames : List String :=
  ["run_name", "input", "outdir", "mode", "use_gpu", "email", "multiqc_title",
   "max_template_date", "alphafold2_db", "full_dbs", "alphafold2_mode",
   "alphafold2_model_preset", "colabfold_db", "colabfold_server",
   "colabfold_model_preset", "num_recycles_colabfold", "use_amber",
   "db_load_mode", "host_url", "use_templates", "create_colabfold_index",
   "esmfold_db", "num_recycles_esmfold", "esmfold_model_preset",
   "skip_multiqc", "bfd_link", "small_bfd_link", "alphafold2_params_link",
   "mgnify_link", "pdb70_link", "pdb_mmcif_link", "pdb_obsolete_link",
   "uniref30_alphafold2_link", "uniref90_link", "pdb_seqres_link",
   "uniprot_sprot_link", "uniprot_trembl_link", "bfd_path", "small_bfd_path",
   "alphafold2_params_path", "mgnify_path", "pdb70_path", "pdb_mmcif_path",
   "uniref30_alphafold2_path", "uniref90_path", "pdb_seqres_path",
   "uniprot_path", "colabfold_db_link", "uniref30_colabfold_link",
   "colabfold_alphafold2_params_link", "colabfold_db_path",
   "uniref30_colabfold_path", "colabfold_alphafold2_params_path",
   "colabfold_alphafold2_params_tags", "esmfold_3B_v1", "esm2_t36_3B_UR50D",
   "esm2_t36_3B_UR50D_contact_regression", "esmfold_params_path",
   "multiqc_methods_description"]

/-- Registry-ordered name/value pairs for a binding: the run_name entry of
the registry followed by the 58 pairs the command builder translates, in
the identical order (the registry enumerates the remaining parameters in
exactly the order the cmd list splices them). -/
def registryPairs (b : NfParams) : List (String × PValue) :=
  ("run_name", PValue.vStr b.run_name) :: cmdPairs b

/-- Formalisation of claim C1 as stated: fixed leading tokens followed by
the Flag-Translator tokens of every registered parameter in registry
order. -/
def cmdClaim (b : NfParams) : List String :=
  fixedTokens ++ flagChain (registryPairs b)

/-! ## Value-position tokens -/

/-- Tokens a translated value contributes in value position (everything
except the leading flag token). -/
def pvalueToks : PValue → List String
  | PValue.absent => []
  | PValue.vBool _ => []
  | PValue.vStr s => [s]
  | PValue.vInt n => [intStr n]
  | PValue.vEnum nm => [nm]
  | PValue.vFile p => [p]
  | PValue.vDir p => [p]

def valueToksChain : List (String × PValue) → List String
  | [] => []
  | p :: ps => pvalueToks p.2 ++ valueToksChain ps

/-- All tokens of the command that sit in value position. -/
def valueTokens (b : NfParams) : List String :=
  valueToksChain (cmdPairs b)

/-- A token list that is either empty or led by a flag token. -/
def flagLed (l : List String) : Prop :=
  l = [] ∨ ∃ nm rest, l = ("--" ++ nm) :: rest

/-! ## Workspace staging (entrypoint.py lines 126-145)

The filesystem is a rose tree; dangling symbolic links are a dedicated
node kind.  copyEntry / copyDir / copyList model the documented recursion
of shutil.copytree: at every directory level the ignore callable is
applied to that directory's entry names, the named entries are skipped,
files are copied, directories recurse, and a dangling symlink either is
skipped silently (ignore_dangling_symlinks true) or records one error.
The error count stands for the error list copytree raises at the end. -/

inductive FsTree where
  | file (name : String)
  | dir (name : String) (children : List FsTree)
  | brokenLink (name : String)

def fsName : FsTree → String
  | FsTree.file n => n
  | FsTree.dir n _ => n
  | FsTree.brokenLink n => n

mutual
def copyEntry (g : Bool) (ign : List String → List String) : FsTree → Option FsTree × Nat
  | FsTree.file n => (some (FsTree.file n), 0)
  | FsTree.brokenLink _ => (none, if g then 0 else 1)
  | FsTree.dir n cs =>
      let r := copyDir g ign cs
      (some (FsTree.dir n r.1), r.2)

def copyDir (g : Bool) (ign : List String → List String) (cs : List FsTree) : List FsTree × Nat :=
  copyList g ign (ign (cs.map fsName)) cs

def copyList (g : Bool) (ign : List String → List String) (ignored : List String) : List FsTree → List FsTree × Nat
  | [] => ([], 0)
  | t :: ts =>
      let rest := copyList g ign ignored ts
      if fsName t ∈ ignored then rest
      else
        let r := copyEntry g ign t
        ((match r.1 with
          | some u => u :: rest.1
          | none => rest.1), r.2 + rest.2)
end

/-- Top level of the copytree model: creating the destination fails with
FileExistsError exactly when it already exists and dirs_exist_ok is
false; otherwise the tree is copied and a nonzero collected error count
raises at the end. -/
def copytreeModel (destExists dirsExistOk g : Bool) (ign : List String → List String)
    (cs : List FsTree) : Except String (List FsTree) :=
  if destExists && !dirsExistOk then Except.error "FileExistsError"
  else
    let r := copyDir g ign cs
    if r.2 = 0 then Except.ok r.1 else Except.error "shutil.Error"

/-- The denylist of entry names the entrypoint excludes from staging. -/
def ignore_list : List String :=
  ["latch", ".latch", ".git", "nextflow", ".nextflow", "work", "results",
   "miniconda", "anaconda3", "mambaforge"]

/-- The ignore callable of the source: a constant function returning the
denylist whatever directory it is asked about. -/
def ign0 : List String → List String := fun _ => ignore_list

/-- The staging call as the entrypoint makes it: merge into the possibly
existing destination, tolerate dangling symlinks, apply the denylist. -/
def stageWorkspace (destExists : Bool) (cs : List FsTree) : Except String (List FsTree) :=
  copytreeModel destExists true true ign0 cs

mutual
def denyFree (bad : List String) : FsTree → Bool
  | FsTree.file n => !(bad.contains n)
  | FsTree.brokenLink n => !(bad.contains n)
  | FsTree.dir n cs => !(bad.contains n) && denyFreeList bad cs

def denyFreeList (bad : List String) : List FsTree → Bool
  | [] => true
  | t :: ts => denyFree bad t && denyFreeList bad ts
end

/-- Children-only denylist freedom: the node's own name is the parent
directory's responsibility. -/
def subFree : FsTree → Bool
  | FsTree.dir _ cs => denyFreeList ignore_list cs
  | _ => true

/-! ## The launch and post-run phases (entrypoint.py lines 231-292)

The environment a run encounters is a record: whether the nextflow log
exists, whether the execution name resolves, and how the du size
measurement behaves (its duration in seconds, exit code, stdout and
stderr).  The observable behaviour of the task tail is the list of events
it performs plus how the process terminates. -/

structure DuEnv where
  duration : Nat
  exitCode : Nat
  stdout : String
  stderr : String
deriving DecidableEq

structure RunEnv where
  logExists : Bool
  execName : Option String
  du : DuEnv
deriving DecidableEq

inductive LaunchOutcome where
  | exited (code : Nat)
  | ioError
deriving DecidableEq

inductive Event where
  | launched
  | logUploaded (remote : String)
  | logUploadSkipped
  | storageReported (bytes : Int)
  | sizeTimeoutWarning
  | sizeErrorLogged (msg : String)
deriving DecidableEq

inductive ExitStatus where
  | exited (code : Nat)
  | raised
deriving DecidableEq

/-- The failed flag as the source computes it: set only when the caught
CalledProcessError fires; an OSError while launching is not caught. -/
def invokerFailedFlag : LaunchOutcome → Bool
  | LaunchOutcome.exited c => c != 0
  | LaunchOutcome.ioError => false

/-- The Pipeline Invoker state machine's Failed state per section 4.4 of
the spec: nonzero subprocess exit or an I/O error while launching. -/
def resolvedFailed : LaunchOutcome → Bool
  | LaunchOutcome.exited c => c != 0
  | LaunchOutcome.ioError => true

def logDirPrefix : String := "latch:///your_log_dir/nf_nf_core_proteinfold"

def logPhase (env : RunEnv) : List Event :=
  if env.logExists then
    match env.execName with
    | none => [Event.logUploadSkipped]
    | some nm => [Event.logUploaded (logDirPrefix ++ "/" ++ nm ++ "/nextflow.log")]
  else []

def duTimeoutSeconds : Nat := 5 * 60

/-- Python str.split with no separator: fields between whitespace runs. -/
def pySplitWs (s : String) : List String :=
  (s.split Char.isWhitespace).filter (fun t => !t.isEmpty)

/-- The size measurement: the subprocess.run call on du with check=True
and a timeout, followed by parsing the first whitespace-separated field
of stdout as an integer. -/
def duMeasured (d : DuEnv) : Option Int :=
  if d.duration > duTimeoutSeconds then none
  else if d.exitCode != 0 then none
  else match (pySplitWs d.stdout).head? with
    | none => none
    | some t => intParse t

def sizePhase (d : DuEnv) : List Event :=
  if d.duration > duTimeoutSeconds then [Event.sizeTimeoutWarning]
  else if d.exitCode != 0 then [Event.sizeErrorLogged d.stderr]
  else match (pySplitWs d.stdout).head? with
    | none => [Event.sizeErrorLogged "parse failure"]
    | some t =>
        match intParse t with
        | some nbytes => [Event.storageReported nbytes]
        | none => [Event.sizeErrorLogged "parse failure"]

/-- The finally block: log upload attempt, then size measurement. -/
def reporterEvents (env : RunEnv) : List Event :=
  logPhase env ++ sizePhase env.du

/-- The tail of the runtime task from the subprocess.run call on: the try
launches once, CalledProcessError sets the failed flag, the finally block
always runs the reporter, an uncaught OSError propagates after the
finally block, and otherwise the task exits 1 exactly when the failed
flag was set. -/
def runtimeTail (lo : LaunchOutcome) (env : RunEnv) : List Event × ExitStatus :=
  let failed := invokerFailedFlag lo
  let events := Event.launched :: reporterEvents env
  match lo with
  | LaunchOutcome.ioError => (events, ExitStatus.raised)
  | LaunchOutcome.exited _ =>
      (events, if failed then ExitStatus.exited 1 else ExitStatus.exited 0)

/-- Observable operating-system exit code of the Python process: an
unhandled exception terminates the interpreter with status 1. -/
def processExitCode : ExitStatus → Nat
  | ExitStatus.exited c => c
  | ExitStatus.raised => 1

/-! ## Storage provisioning (entrypoint.py lines 37-57)

Models the task named initialize in the source: read the execution token
from the environment, issue one POST to the dispatcher service, raise for
a 4xx or 5xx status, and extract the name field of the JSON response. -/

structure HttpResponse where
  status : Nat
  body : List (String × String)
deriving DecidableEq

structure HttpRequest where
  url : String
  authHeader : String
  storage_expiration_hours : Nat
  version : Nat
deriving DecidableEq

inductive ProvisionError where
  | missingCredential
  | httpError (status : Nat)
  | malformedResponse
deriving DecidableEq

def provisionUrl : String :=
  "http://nf-dispatcher-service.flyte.svc.cluster.local/provision-storage"

def lookupField : List (String × String) → String → Option String
  | [], _ => none
  | (k, v) :: rest, key => if k = key then some v else lookupField rest key

/-- The provisioning task: the pair of the HTTP requests it issues (in
order) and its result. -/
def provisionStorage (token : Option String) (resp : HttpResponse) :
    List HttpRequest × Except ProvisionError String :=
  match token with
  | none => ([], Except.error ProvisionError.missingCredential)
  | some tok =>
      let req : HttpRequest :=
        { url := provisionUrl,
          authHeader := "Latch-Execution-Token " ++ tok,
          storage_expiration_hours := 0,
          version := 2 }
      if 400 ≤ resp.status ∧ resp.status ≤ 599 then
        ([req], Except.error (ProvisionError.httpError resp.status))
      else
        match lookupField resp.body "name" with
        | some nm => ([req], Except.ok nm)
        | none => ([req], Except.error ProvisionError.malformedResponse)

/-- The workflow composition: provisioning runs first and the runtime
task (and hence its subprocess launch) runs only when provisioning
succeeded. -/
def workflowModel (token : Option String) (resp : HttpResponse)
    (lo : LaunchOutcome) (env : RunEnv) :
    List HttpRequest × List Event × ExitStatus :=
  match provisionStorage token resp with
  | (reqs, Except.error _) => (reqs, [], ExitStatus.raised)
  | (reqs, Except.ok _) =>
      let r := runtimeTail lo env
      (reqs, r.1, r.2)

/-! ## Splits of the command pair list around single parameters -/

def pairsBeforeEmail (b : NfParams) : List (String × PValue) := (cmdPairs b).take 4

def pairsAfterEmail (b : NfParams) : List (String × PValue) := (cmdPairs b).drop 5

def pairsBeforeUseAmber (b : NfParams) : List (String × PValue) := (cmdPairs b).take 15

def pairsAfterUseAmber (b : NfParams) : List (String × PValue) := (cmdPairs b).drop 16

def pairsBeforeNumRecycles (b : NfParams) : List (String × PValue) := (cmdPairs b).take 14

def pairsAfterNumRecycles (b : NfParams) : List (String × PValue) := (cmdPairs b).drop 15

/-! ## Concrete fixtures -/

/-- A representative binding: required values set, optional values at the
workflow defaults where the registry declares one, link parameters left
absent. -/
def sampleA : NfParams :=
  { pvc_name := "pvc-0"
    run_name := "run1"
    input := "latch:///account/in.csv"
    outdir := "latch:///account/outputs"
    use_gpu := false
    email := none
    multiqc_title := none
    alphafold2_db := none
    colabfold_db := none
    host_url := none
    create_colabfold_index := false
    esmfold_db := none
    esmfold_model_preset := none
    skip_multiqc := false
    bfd_path := none
    small_bfd_path := none
    alphafold2_params_path := none
    mgnify_path := none
    pdb70_path := none
    pdb_mmcif_path := none
    uniref30_alphafold2_path := none
    uniref90_path := none
    pdb_seqres_path := none
    uniprot_path := none
    colabfold_alphafold2_params_link := none
    colabfold_db_path := none
    uniref30_colabfold_path := none
    colabfold_alphafold2_params_path := none
    colabfold_alphafold2_params_tags := none
    esmfold_params_path := none
    multiqc_methods_description := none
    mode := Mode.alphafold2
    max_template_date := some "2020-05-14"
    full_dbs := false
    alphafold2_mode := some "standard"
    alphafold2_model_preset := some "monomer"
    colabfold_server := some "webserver"
    colabfold_model_preset := some "alphafold2_ptm"
    num_recycles_colabfold := some 3
    use_amber := true
    db_load_mode := some 0
    use_templates := true
    num_recycles_esmfold := some 4
    bfd_link := none
    small_bfd_link := none
    alphafold2_params_link := none
    mgnify_link := none
    pdb70_link := none
    pdb_mmcif_link := none
    pdb_obsolete_link := none
    uniref30_alphafold2_link := none
    uniref90_link := none
    pdb_seqres_link := none
    uniprot_sprot_link := none
    uniprot_trembl_link := none
    colabfold_db_link := none
    uniref30_colabfold_link := none
    esmfold_3B_v1 := none
    esm2_t36_3B_UR50D := none
    esm2_t36_3B_UR50D_contact_regression := none }

/-- An adversarial binding with the email parameter absent but another
string parameter bound to the literal flag text. -/
def sampleAdv : NfParams :=
  { sampleA with multiqc_title := some "--email" }

def duFast : DuEnv :=
  { duration := 2, exitCode := 0, stdout := "123 /nf-workdir", stderr := "" }

def duSlow : DuEnv :=
  { duration := 301, exitCode := 0, stdout := "123 /nf-workdir", stderr := "" }

def envFast : RunEnv :=
  { logExists := true, execName := some "exec1", du := duFast }

def envSlow : RunEnv :=
  { logExists := true, execName := some "exec1", du := duSlow }

def respOk : HttpResponse := { status := 200, body := [("name", "pvc-123")] }

def respFail : HttpResponse := { status := 500, body := [] }

def respEmpty : HttpResponse := { status := 200, body := [("other", "x")] }

/-! ## Lemmas: decimal rendering and parsing invert each other -/

theorem fromDigits_digitsFuel (fuel : Nat) :
    ∀ n, n ≤ fuel → fromDigits (digitsFuel fuel n) = n := by
  induction fuel with
  | zero => intro n hn; interval_cases n; simp [digitsFuel, fromDigits]
  | succ fuel ih =>
      intro n hn
      by_cases h0 : n = 0
      · simp [digitsFuel, h0, fromDigits]
      · have hdiv : n / 10 ≤ fuel := by
          have := Nat.div_lt_self (Nat.pos_of_ne_zero h0) (by omega : 1 < 10)
          omega
        rw [digitsFuel, if_neg h0, fromDigits, ih (n / 10) hdiv]
        omega

theorem digitsFuel_lt (fuel : Nat) : ∀ n d, d ∈ digitsFuel fuel n → d < 10 := by
  induction fuel with
  | zero => intro n d hd; simp [digitsFuel] at hd
  | succ fuel ih =>
      intro n d hd
      by_cases h0 : n = 0
      · simp [digitsFuel, h0] at hd
      · rw [digitsFuel, if_neg h0] at hd
        rcases List.mem_cons.mp hd with h | h
        · omega
        · exact ih (n / 10) d h

theorem digitsFuel_ne_nil (fuel n : Nat) (h0 : n ≠ 0) (hf : fuel ≠ 0) :
    digitsFuel fuel n ≠ [] := by
  cases fuel with
  | zero => exact absurd rfl hf
  | succ fuel => simp [digitsFuel, h0]

theorem charDigit_digitChar (d : Nat) (hd : d < 10) :
    charDigit (digitChar d) = d ∧ (digitChar d).isDigit = true := by
  revert hd
  revert d
  decide

theorem natParseL_natStr (n : Nat) : natParseL (natStr n) = some n := by
  by_cases h0 : n = 0
  · subst h0; decide
  · have hne : natDigits n ≠ [] := digitsFuel_ne_nil n n h0 h0
    have hlt : ∀ d ∈ natDigits n, d < 10 := fun d hd => digitsFuel_lt n n d hd
    have hstr : natStr n = ((natDigits n).map digitChar).reverse := by
      rw [natStr, if_neg h0]
    have hdig : ∀ c ∈ natStr n, c.isDigit = true := by
      intro c hc
      rw [hstr, List.mem_reverse, List.mem_map] at hc
      obtain ⟨d, hd, rfl⟩ := hc
      exact (charDigit_digitChar d (hlt d hd)).2
    have hne2 : natStr n ≠ [] := by
      rw [hstr]
      intro hcon
      rw [List.reverse_eq_nil_iff, List.map_eq_nil_iff] at hcon
      exact hne hcon
    have hmap : ((natDigits n).map digitChar).map charDigit = natDigits n := by
      rw [List.map_map]
      have h1 : (natDigits n).map (charDigit ∘ digitChar) = (natDigits n).map id :=
        List.map_congr_left (fun d hd => (charDigit_digitChar d (hlt d hd)).1)
      rw [h1, List.map_id]
    rw [natParseL, if_pos]
    · rw [hstr, List.map_reverse, hmap, List.reverse_reverse]
      exact congrArg some (fromDigits_digitsFuel n n le_rfl)
    · exact ⟨hne2, List.all_eq_true.mpr fun c hc => hdig c hc⟩

theorem natStr_ne_nil (n : Nat) : natStr n ≠ [] := by
  by_cases h0 : n = 0
  · subst h0; decide
  · rw [natStr, if_neg h0]
    intro hcon
    rw [List.reverse_eq_nil_iff, List.map_eq_nil_iff] at hcon
    exact digitsFuel_ne_nil n n h0 h0 hcon

theorem natStr_all_digits (n : Nat) : ∀ c ∈ natStr n, c.isDigit = true := by
  by_cases h0 : n = 0
  · subst h0; decide
  · intro c hc
    rw [natStr, if_neg h0, List.mem_reverse, List.mem_map] at hc
    obtain ⟨d, hd, rfl⟩ := hc
    exact (charDigit_digitChar d (digitsFuel_lt n n d hd)).2

/-- The round-trip law for integers: parsing the stringified value
recovers the value. -/
theorem intParse_intStr (i : Int) : intParse (intStr i) = some i := by
  cases i with
  | ofNat n =>
      show intParseL (natStr n) = some (Int.ofNat n)
      rcases hcs : natStr n with _ | ⟨c, cs⟩
      · exact absurd hcs (natStr_ne_nil n)
      · have hc : c.isDigit = true :=
          natStr_all_digits n c (by rw [hcs]; exact List.mem_cons_self c cs)
        have hcne : ¬ c = '-' := by
          intro h
          subst h
          simp [Char.isDigit] at hc
        simp only [intParseL, if_neg hcne]
        rw [← hcs, natParseL_natStr]
        rfl
  | negSucc m =>
      show intParseL ('-' :: natStr (m + 1)) = some (Int.negSucc m)
      simp only [intParseL, if_pos rfl]
      rw [natParseL_natStr]
      show some (-((m + 1 : Nat) : Int)) = some (Int.negSucc m)
      exact congrArg some (by rw [Int.negSucc_eq]; push_cast; ring)

/-- The round-trip law for the mode enum via its symbolic name. -/
theorem modeOfName_modeName (m : Mode) : modeOfName (modeName m) = some m := by
  cases m <;> rfl

/-! ## Lemmas: command structure -/

/-- The literally transcribed command equals the fixed tokens followed by
the chained translations of the 58 source-ordered pairs. -/
theorem cmd_eq_chain (b : NfParams) : cmd b = fixedTokens ++ flagChain (cmdPairs b) := by
  simp [cmd, cmdPairs, flagChain, List.append_assoc]

theorem flagChain_append (l1 l2 : List (String × PValue)) :
    flagChain (l1 ++ l2) = flagChain l1 ++ flagChain l2 := by
  induction l1 with
  | nil => simp [flagChain]
  | cons p ps ih => simp [flagChain, ih]

theorem valueToksChain_append (l1 l2 : List (String × PValue)) :
    valueToksChain (l1 ++ l2) = valueToksChain l1 ++ valueToksChain l2 := by
  induction l1 with
  | nil => simp [valueToksChain]
  | cons p ps ih => simp [valueToksChain, ih]

/-- Every token a translation produces is the flag token or one of the
value tokens. -/
theorem mem_get_flag (tok name : String) (v : PValue) (h : tok ∈ get_flag name v) :
    tok = "--" ++ name ∨ tok ∈ pvalueToks v := by
  cases v with
  | absent => simp [get_flag] at h
  | vBool bv =>
      cases bv with
      | false => simp [get_flag] at h
      | true => simp [get_flag] at h; exact Or.inl h
  | vStr s => simp [get_flag, pvalueToks] at h ⊢; exact h
  | vInt n => simp [get_flag, pvalueToks] at h ⊢; exact h
  | vEnum nm => simp [get_flag, pvalueToks] at h ⊢; exact h
  | vFile p => simp [get_flag, pvalueToks] at h ⊢; exact h
  | vDir p => simp [get_flag, pvalueToks] at h ⊢; exact h

theorem mem_flagChain (tok : String) :
    ∀ l : List (String × PValue), tok ∈ flagChain l →
      (∃ p ∈ l, tok = "--" ++ p.1) ∨ tok ∈ valueToksChain l := by
  intro l
  induction l with
  | nil => simp [flagChain]
  | cons p ps ih =>
      intro h
      rw [flagChain, List.mem_append] at h
      rcases h with h | h
      · rcases mem_get_flag tok p.1 p.2 h with h | h
        · exact Or.inl ⟨p, List.mem_cons_self p ps, h⟩
        · exact Or.inr (by rw [valueToksChain, List.mem_append]; exact Or.inl h)
      · rcases ih h with ⟨q, hq, hq2⟩ | h
        · exact Or.inl ⟨q, List.mem_cons_of_mem p hq, hq2⟩
        · exact Or.inr (by rw [valueToksChain, List.mem_append]; exact Or.inr h)

/-- A token that is none of the flag tokens of a chain and none of its
value tokens does not occur in the chain. -/
theorem not_mem_flagChain (tok : String) (l : List (String × PValue))
    (hnames : (l.all fun p => "--" ++ p.1 != tok) = true)
    (hvals : tok ∉ valueToksChain l) : tok ∉ flagChain l := by
  intro hmem
  rcases mem_flagChain tok l hmem with ⟨p, hp, heq⟩ | hv
  · have hall := List.all_eq_true.mp hnames p hp
    rw [heq] at hall
    simp at hall
  · exact hvals hv

theorem flagLed_append (l1 l2 : List String) (h1 : flagLed l1) (h2 : flagLed l2) :
    flagLed (l1 ++ l2) := by
  rcases h1 with rfl | ⟨nm, rest, rfl⟩
  · simpa using h2
  · exact Or.inr ⟨nm, rest ++ l2, by simp⟩

theorem flagLed_get_flag (name : String) (v : PValue) : flagLed (get_flag name v) := by
  cases v with
  | absent => exact Or.inl rfl
  | vBool bv =>
      cases bv with
      | false => exact Or.inl rfl
      | true => exact Or.inr ⟨name, [], rfl⟩
  | vStr s => exact Or.inr ⟨name, [s], rfl⟩
  | vInt n => exact Or.inr ⟨name, [intStr n], rfl⟩
  | vEnum nm => exact Or.inr ⟨name, [nm], rfl⟩
  | vFile p => exact Or.inr ⟨name, [p], rfl⟩
  | vDir p => exact Or.inr ⟨name, [p], rfl⟩

theorem flagLed_flagChain (l : List (String × PValue)) : flagLed (flagChain l) := by
  induction l with
  | nil => exact Or.inl rfl
  | cons p ps ih => exact flagLed_append _ _ (flagLed_get_flag p.1 p.2) ih

/-! ## Lemmas: workspace staging -/

theorem denyFree_of_subFree (u : FsTree) (h1 : fsName u ∉ ignore_list)
    (h2 : subFree u = true) : denyFree ignore_list u = true := by
  cases u <;> simp_all [denyFree, subFree, fsName, List.elem_iff]

mutual
theorem copyEntry_spec : ∀ t : FsTree, (copyEntry true ign0 t).2 = 0 ∧
    ∀ u, (copyEntry true ign0 t).1 = some u → fsName u = fsName t ∧ subFree u = true
  | FsTree.file n => by
      constructor
      · simp [copyEntry]
      · intro u hu
        simp [copyEntry] at hu
        subst hu
        simp [fsName, subFree]
  | FsTree.brokenLink n => by
      constructor
      · simp [copyEntry]
      · intro u hu
        simp [copyEntry] at hu
  | FsTree.dir n cs => by
      have h := copyDir_spec cs
      constructor
      · simp [copyEntry, h.1]
      · intro u hu
        simp [copyEntry] at hu
        subst hu
        simp [fsName, subFree, h.2]

theorem copyDir_spec : ∀ cs : List FsTree, (copyDir true ign0 cs).2 = 0 ∧
    denyFreeList ignore_list (copyDir true ign0 cs).1 = true
  | cs => by
      have h := copyList_spec cs
      simpa [copyDir, ign0] using h

theorem copyList_spec : ∀ cs : List FsTree,
    (copyList true ign0 ignore_list cs).2 = 0 ∧
    denyFreeList ignore_list (copyList true ign0 ignore_list cs).1 = true
  | [] => by simp [copyList, denyFreeList]
  | t :: ts => by
      have hrest := copyList_spec ts
      have hent := copyEntry_spec t
      by_cases h : fsName t ∈ ignore_list
      · rw [copyList]
        simp only [h, if_pos]
        exact hrest
      · rw [copyList]
        simp only [h, if_neg, not_false_iff]
        cases hr : (copyEntry true ign0 t).1 with
        | none => simpa [hr, hent.1] using hrest
        | some u =>
            have hu := hent.2 u hr
            have hdf : denyFree ignore_list u = true := by
              apply denyFree_of_subFree u _ hu.2
              rw [hu.1]
              exact h
            simp [hr, hent.1, hrest.1, denyFreeList, hdf, hrest.2]
end

/-! ## Lemmas: post-run reporting events -/

theorem launched_not_mem_logPhase (env : RunEnv) : Event.launched ∉ logPhase env := by
  rw [logPhase]
  split
  · cases env.execName <;> simp
  · simp

theorem launched_not_mem_sizePhase (d : DuEnv) : Event.launched ∉ sizePhase d := by
  rw [sizePhase]
  split
  · simp
  · split
    · simp
    · rcases h1 : (pySplitWs d.stdout).head? with _ | t
      · simp [h1]
      · rcases h2 : intParse t with _ | v
        · simp [h1, h2]
        · simp [h1, h2]

theorem launched_not_mem_reporter (env : RunEnv) :
    Event.launched ∉ reporterEvents env := by
  rw [reporterEvents, List.mem_append]
  rintro (h | h)
  · exact launched_not_mem_logPhase env h
  · exact launched_not_mem_sizePhase env.du h

theorem storageReported_not_mem_logPhase (env : RunEnv) (nbytes : Int) :
    Event.storageReported nbytes ∉ logPhase env := by
  rw [logPhase]
  split
  · cases env.execName <;> simp
  · simp

/-- Reporting happens exactly for measured sizes. -/
theorem storageReported_mem_sizePhase (d : DuEnv) (nbytes : Int) :
    Event.storageReported nbytes ∈ sizePhase d ↔ duMeasured d = some nbytes := by
  by_cases hto : d.duration > duTimeoutSeconds
  · simp [sizePhase, duMeasured, hto]
  · by_cases hec : d.exitCode != 0
    · simp [sizePhase, duMeasured, hto, hec]
    · rcases h1 : (pySplitWs d.stdout).head? with _ | t
      · simp [sizePhase, duMeasured, hto, hec, h1]
      · rcases h2 : intParse t with _ | v
        · simp [sizePhase, duMeasured, hto, hec, h1, h2]
        · simp [sizePhase, duMeasured, hto, hec, h1, h2, eq_comm]

/-! ## Claim theorems -/

/-- Claim C1, amended: the command line consists of the fixed leading
tokens (runner path, run subcommand, script path, work-dir flag and path,
profile flag and comma-joined profile list, config flag and name, resume
flag) followed by the Flag-Translator tokens of every parameter the
registry enumerates except run_name, in registry order.  The first
conjunct pins the registry enumeration itself.  The claim as stated,
which includes run_name among the translated parameters, is refuted by
the counterexample. -/
theorem C1_command_layout (b : NfParams) :
    (registryPairs b).map Prod.fst = registryNames ∧
    cmd b = fixedTokens ++ flagChain ((registryPairs b).filter fun p => p.1 != "run_name") := by
  constructor
  · rfl
  · have hf : ((registryPairs b).filter fun p => p.1 != "run_name") = cmdPairs b := rfl
    rw [hf, cmd_eq_chain]

/-- Claim C1 counterexample: the registry registers run_name, so the
claimed command contains a run_name flag token, but the built command
never does. -/
theorem C1_counterexample :
    cmd sampleA ≠ cmdClaim sampleA ∧
    "--run_name" ∈ cmdClaim sampleA ∧ "--run_name" ∉ cmd sampleA := by decide

/-- Claim C2: the reporter events follow the launch in every trace,
whatever the launch outcome, and the operating-system exit code is 1
exactly when the Pipeline Invoker resolved to Failed and 0 otherwise. -/
theorem C2_reporter_always_runs_exit_iff_failed (lo : LaunchOutcome) (env : RunEnv) :
    (runtimeTail lo env).1 = Event.launched :: reporterEvents env ∧
    (processExitCode (runtimeTail lo env).2 = 1 ↔ resolvedFailed lo = true) ∧
    (processExitCode (runtimeTail lo env).2 = 0 ↔ resolvedFailed lo = false) := by
  cases lo with
  | ioError =>
      refine ⟨rfl, ?_, ?_⟩ <;>
        simp [runtimeTail, processExitCode, resolvedFailed]
  | exited c =>
      by_cases hc : c = 0
      · subst hc
        refine ⟨rfl, ?_, ?_⟩ <;>
          simp [runtimeTail, processExitCode, resolvedFailed, invokerFailedFlag]
      · refine ⟨rfl, ?_, ?_⟩ <;>
          simp [runtimeTail, processExitCode, resolvedFailed, invokerFailedFlag, hc]

/-- Claim C3: the run fails (nonzero process exit) exactly when the
subprocess exited nonzero or launching raised an I/O error, and each
trace contains exactly one launch event (no retry). -/
theorem C3_failed_exactly_once (lo : LaunchOutcome) (env : RunEnv) :
    (processExitCode (runtimeTail lo env).2 ≠ 0 ↔
      lo = LaunchOutcome.ioError ∨ ∃ c, lo = LaunchOutcome.exited c ∧ c ≠ 0) ∧
    (runtimeTail lo env).1.count Event.launched = 1 := by
  constructor
  · cases lo with
    | ioError => simp [runtimeTail, processExitCode]
    | exited c =>
        by_cases hc : c = 0
        · subst hc
          simp [runtimeTail, processExitCode, invokerFailedFlag]
        · simp [runtimeTail, processExitCode, invokerFailedFlag, hc]
  · have h1 : (runtimeTail lo env).1 = Event.launched :: reporterEvents env := by
      cases lo <;> rfl
    rw [h1, List.count_cons_self,
        List.count_eq_zero.mpr (launched_not_mem_reporter env)]

/-- Claim C4: boolean true translates to the single presence-only flag
token, boolean false and absent values translate to nothing, and a
binding with use_amber true yields a command in which the use_amber flag
token is followed only by the chained later translations, whose first
token (if any) is itself a flag token, never a value token. -/
theorem C4_boolean_flag (name : String) (b : NfParams) (h : b.use_amber = true) :
    get_flag name (PValue.vBool true) = ["--" ++ name] ∧
    get_flag name (PValue.vBool false) = [] ∧
    get_flag name PValue.absent = [] ∧
    cmd b = fixedTokens ++ flagChain (pairsBeforeUseAmber b) ++
      "--use_amber" :: flagChain (pairsAfterUseAmber b) ∧
    flagLed (flagChain (pairsAfterUseAmber b)) := by
  refine ⟨rfl, rfl, rfl, ?_, flagLed_flagChain _⟩
  have hsplit : cmdPairs b =
      pairsBeforeUseAmber b ++ ("use_amber", PValue.vBool b.use_amber) :: pairsAfterUseAmber b := rfl
  rw [cmd_eq_chain, hsplit, flagChain_append, h]
  rfl

theorem C4_witness :
    sampleA.use_amber = true ∧
    (get_flag "x" (PValue.vBool true) = ["--" ++ "x"] ∧
     get_flag "x" (PValue.vBool false) = [] ∧
     get_flag "x" PValue.absent = [] ∧
     cmd sampleA = fixedTokens ++ flagChain (pairsBeforeUseAmber sampleA) ++
       "--use_amber" :: flagChain (pairsAfterUseAmber sampleA) ∧
     flagLed (flagChain (pairsAfterUseAmber sampleA))) :=
  ⟨rfl, C4_boolean_flag "x" sampleA rfl⟩

/-- Claim C5: a present scalar translates to exactly the flag token and
the stringified value, re-parsing the stringified value recovers it
(strings are their own rendering, integers via the decimal round-trip,
enums via the symbolic name), and a binding with num_recycles_colabfold
three yields the two adjacent tokens in the command. -/
theorem C5_scalar_roundtrip (name s : String) (n : Int) (m : Mode) (b : NfParams)
    (h : b.num_recycles_colabfold = some 3) :
    get_flag name (PValue.vStr s) = ["--" ++ name, s] ∧
    get_flag name (PValue.vInt n) = ["--" ++ name, intStr n] ∧
    intParse (intStr n) = some n ∧
    get_flag name (PValue.vEnum (modeName m)) = ["--" ++ name, modeName m] ∧
    modeOfName (modeName m) = some m ∧
    cmd b = fixedTokens ++ flagChain (pairsBeforeNumRecycles b) ++
      "--num_recycles_colabfold" :: "3" :: flagChain (pairsAfterNumRecycles b) := by
  refine ⟨rfl, rfl, intParse_intStr n, rfl, modeOfName_modeName m, ?_⟩
  have hsplit : cmdPairs b =
      pairsBeforeNumRecycles b ++
        ("num_recycles_colabfold", pvOptInt b.num_recycles_colabfold) ::
          pairsAfterNumRecycles b := rfl
  rw [cmd_eq_chain, hsplit, flagChain_append, h]
  rfl

theorem C5_witness :
    sampleA.num_recycles_colabfold = some 3 ∧
    (get_flag "x" (PValue.vStr "v") = ["--" ++ "x", "v"] ∧
     get_flag "x" (PValue.vInt 7) = ["--" ++ "x", intStr 7] ∧
     intParse (intStr 7) = some 7 ∧
     get_flag "x" (PValue.vEnum (modeName Mode.colabfold)) = ["--" ++ "x", modeName Mode.colabfold] ∧
     modeOfName (modeName Mode.colabfold) = some Mode.colabfold ∧
     cmd sampleA = fixedTokens ++ flagChain (pairsBeforeNumRecycles sampleA) ++
       "--num_recycles_colabfold" :: "3" :: flagChain (pairsAfterNumRecycles sampleA)) :=
  ⟨rfl, C5_scalar_roundtrip "x" "v" 7 Mode.colabfold sampleA rfl⟩

/-- Claim C6 counterexample: with email absent but another string
parameter bound to the literal text of the email flag, the email flag
token does occur in the command, refuting the claim that no email flag
token appears anywhere whenever email is absent. -/
theorem C6_counterexample :
    sampleAdv.email = none ∧ "--email" ∈ cmd sampleAdv := by decide

/-- Claim C6, amended: translating the absent email value yields no
tokens, and the email flag token does not appear anywhere in the command
provided no other bound parameter value stringifies to that literal
text. -/
theorem C6_email_omitted (b : NfParams) (h1 : b.email = none)
    (h2 : "--email" ∉ valueTokens b) :
    get_flag "email" (pvOptStr b.email) = [] ∧ "--email" ∉ cmd b := by
  have hmid : get_flag "email" (pvOptStr b.email) = [] := by rw [h1]; rfl
  refine ⟨hmid, ?_⟩
  have hsplit : cmdPairs b =
      pairsBeforeEmail b ++ ("email", pvOptStr b.email) :: pairsAfterEmail b := rfl
  have hvt : "--email" ∉ valueToksChain (pairsBeforeEmail b) ∧
      "--email" ∉ valueToksChain (pairsAfterEmail b) := by
    constructor <;> intro hm <;> apply h2
    · rw [valueTokens, hsplit, valueToksChain_append]
      exact List.mem_append.mpr (Or.inl hm)
    · rw [valueTokens, hsplit, valueToksChain_append]
      refine List.mem_append.mpr (Or.inr ?_)
      rw [valueToksChain]
      exact List.mem_append.mpr (Or.inr hm)
  rw [cmd_eq_chain, hsplit, flagChain_append]
  intro hmem
  rcases List.mem_append.mp hmem with hmem | hmem
  · exact absurd hmem (by decide)
  · rcases List.mem_append.mp hmem with hmem | hmem
    · exact not_mem_flagChain "--email" (pairsBeforeEmail b) rfl hvt.1 hmem
    · rw [flagChain, hmid, List.nil_append] at hmem
      exact not_mem_flagChain "--email" (pairsAfterEmail b) rfl hvt.2 hmem

theorem C6_witness :
    sampleA.email = none ∧ "--email" ∉ valueTokens sampleA ∧
    (get_flag "email" (pvOptStr sampleA.email) = [] ∧ "--email" ∉ cmd sampleA) :=
  ⟨rfl, by decide, C6_email_omitted sampleA rfl (by decide)⟩

/-- Claim C7: the staging call never fails, whether or not the
destination already exists, collects no error from dangling symlinks,
and its result contains no denylisted path component at any depth. -/
theorem C7_staging (destExists : Bool) (cs : List FsTree) :
    stageWorkspace destExists cs = Except.ok (copyDir true ign0 cs).1 ∧
    (copyDir true ign0 cs).2 = 0 ∧
    denyFreeList ignore_list (copyDir true ign0 cs).1 = true := by
  have h := copyDir_spec cs
  refine ⟨?_, h.1, h.2⟩
  rw [stageWorkspace, copytreeModel]
  simp [h.1]

/-- Claim C8: past the five-minute timeout the size phase is exactly the
timeout warning, the usage-tracking collaborator is never called, the
process termination status is unchanged by any reporting environment, and
in general a byte count is reported exactly when the measurement
succeeds. -/
theorem C8_timeout_nonfatal (lo : LaunchOutcome) (env : RunEnv)
    (h : env.du.duration > duTimeoutSeconds) :
    sizePhase env.du = [Event.sizeTimeoutWarning] ∧
    (∀ nbytes : Int, Event.storageReported nbytes ∉ (runtimeTail lo env).1) ∧
    (∀ env2 : RunEnv, (runtimeTail lo env).2 = (runtimeTail lo env2).2) ∧
    (∀ d : DuEnv, ∀ nbytes : Int,
      (Event.storageReported nbytes ∈ sizePhase d ↔ duMeasured d = some nbytes)) := by
  have hsz : sizePhase env.du = [Event.sizeTimeoutWarning] := by
    rw [sizePhase, if_pos h]
  refine ⟨hsz, ?_, ?_, fun d nbytes => storageReported_mem_sizePhase d nbytes⟩
  · intro nbytes hmem
    have h1 : (runtimeTail lo env).1 = Event.launched :: reporterEvents env := by
      cases lo <;> rfl
    rw [h1] at hmem
    rcases List.mem_cons.mp hmem with hmem | hmem
    · simp at hmem
    · rw [reporterEvents] at hmem
      rcases List.mem_append.mp hmem with hmem | hmem
      · exact storageReported_not_mem_logPhase env nbytes hmem
      · rw [hsz] at hmem
        simp at hmem
  · intro env2
    cases lo <;> rfl

theorem C8_witness :
    duSlow.duration > duTimeoutSeconds ∧
    sizePhase duSlow = [Event.sizeTimeoutWarning] ∧
    Event.storageReported 123 ∉ (runtimeTail (LaunchOutcome.exited 137) envSlow).1 ∧
    (runtimeTail (LaunchOutcome.exited 137) envSlow).2 =
      (runtimeTail (LaunchOutcome.exited 137) envFast).2 ∧
    (Event.storageReported 123 ∈ sizePhase duFast ↔ duMeasured duFast = some 123) :=
  ⟨by decide,
   (C8_timeout_nonfatal (LaunchOutcome.exited 137) envSlow (by decide)).1,
   (C8_timeout_nonfatal (LaunchOutcome.exited 137) envSlow (by decide)).2.1 123,
   (C8_timeout_nonfatal (LaunchOutcome.exited 137) envSlow (by decide)).2.2.1 envFast,
   (C8_timeout_nonfatal (LaunchOutcome.exited 137) envSlow (by decide)).2.2.2 duFast 123⟩

/-- Claim C9: without the ambient execution token provisioning fails with
the missing-credential error before issuing any request and before any
launch event of the workflow; with a token exactly one request with the
fixed body is issued, any 4xx or 5xx status is a fatal error with no
further request, a success response without the name field is a
malformed-response error, and a success response with the name field
returns the handle. -/
theorem C9_provisioning (tok : String) (resp : HttpResponse)
    (lo : LaunchOutcome) (env : RunEnv) :
    provisionStorage none resp = ([], Except.error ProvisionError.missingCredential) ∧
    (workflowModel none resp lo env).2.1 = [] ∧
    (provisionStorage (some tok) resp).1 =
      [{ url := provisionUrl, authHeader := "Latch-Execution-Token " ++ tok,
         storage_expiration_hours := 0, version := 2 }] ∧
    (400 ≤ resp.status ∧ resp.status ≤ 599 →
      (provisionStorage (some tok) resp).2 =
        Except.error (ProvisionError.httpError resp.status)) ∧
    (resp.status < 400 → lookupField resp.body "name" = none →
      (provisionStorage (some tok) resp).2 = Except.error ProvisionError.malformedResponse) ∧
    (∀ nm, resp.status < 400 → lookupField resp.body "name" = some nm →
      (provisionStorage (some tok) resp).2 = Except.ok nm) := by
  refine ⟨rfl, rfl, ?_, ?_, ?_, ?_⟩
  · rw [provisionStorage]
    by_cases hc : 400 ≤ resp.status ∧ resp.status ≤ 599
    · rw [if_pos hc]
    · rw [if_neg hc]
      cases lookupField resp.body "name" <;> rfl
  · intro hc
    rw [provisionStorage, if_pos hc]
  · intro h1 h2
    rw [provisionStorage, if_neg (by omega : ¬(400 ≤ resp.status ∧ resp.status ≤ 599)), h2]
  · intro nm h1 h2
    rw [provisionStorage, if_neg (by omega : ¬(400 ≤ resp.status ∧ resp.status ≤ 599)), h2]

theorem C9_witness :
    provisionStorage none respOk = ([], Except.error ProvisionError.missingCredential) ∧
    (workflowModel none respOk (LaunchOutcome.exited 0) envFast).2.1 = [] ∧
    (provisionStorage (some "tok0") respFail).1 =
      [{ url := provisionUrl, authHeader := "Latch-Execution-Token " ++ "tok0",
         storage_expiration_hours := 0, version := 2 }] ∧
    (provisionStorage (some "tok0") respFail).2 =
      Except.error (ProvisionError.httpError 500) ∧
    (provisionStorage (some "tok0") respEmpty).2 =
      Except.error ProvisionError.malformedResponse ∧
    (provisionStorage (some "tok0") respOk).2 = Except.ok "pvc-123" :=
  ⟨(C9_provisioning "tok0" respOk (LaunchOutcome.exited 0) envFast).1,
   (C9_provisioning "tok0" respOk (LaunchOutcome.exited 0) envFast).2.1,
   (C9_provisioning "tok0" respFail (LaunchOutcome.exited 0) envFast).2.2.1,
   (C9_provisioning "tok0" respFail (LaunchOutcome.exited 0) envFast).2.2.2.1
     (by decide),
   (C9_provisioning "tok0" respEmpty (LaunchOutcome.exited 0) envFast).2.2.2.2.1
     (by decide) (by decide),
   (C9_provisioning "tok0" respOk (LaunchOutcome.exited 0) envFast).2.2.2.2.2
     "pvc-123" (by decide) (by decide)⟩

/-- Claim C10: the storage volume handle does not influence the command:
rebinding pvc_name to any value leaves the built command unchanged. -/
theorem C10_pvc_name_not_read (b : NfParams) (v : String) :
    cmd { b with pvc_name := v } = cmd b := rfl

end Proteinfold
